import Mathlib

/-!
Verification of the `tpu` module (`src/tpu.rs`): a shallow embedding of the
Transaction Processing Unit's sync path, worker loops, verifier stage and
replicator stage, with theorems about drain discipline, effect ordering,
loop-exit conditions, blob recycling and the unused events socket.

Machine state and I/O are made explicit: each operation is embedded as a pure
function that returns the list of externally visible effects it performs (in
order) together with its result.  Worker loops are embedded as their loop-break
conditions over the per-iteration observations (did the iteration return an
error; is the stop flag set).
-/

namespace Tpu

/-- An entry of the ordered log: number of hashes, content-addressed id, and
the list of events (abstracted to their serialized payloads). -/
structure Entry where
  num_hashes : Nat
  id : Nat
  events : List Nat
  deriving DecidableEq

/-- A blob: framing metadata (index, originating node id) plus the entries it
carries. -/
structure Blob where
  index : Nat
  node_id : Nat
  entries : List Entry
  deriving DecidableEq

/-- Error returned by a blocking channel receive with timeout. -/
inductive RecvErr where
  | timeout
  | disconnected
  deriving DecidableEq

/-- Which writer the sync path is bound to: the caller-supplied writer
(`run_sync`) or `std::io::sink()` (`run_sync_no_broadcast`). -/
inductive Writer where
  | user
  | sink
  deriving DecidableEq

/-- Externally visible effects of the sync path, in program order: channel
receives, `register_entry_id`, the locked line write, subscriber notification,
and the send to the broadcaster. -/
inductive Eff where
  | recvBlocking
  | recvTry
  | register (id : Nat)
  | lockWriter (w : Writer)
  | writeLine (w : Writer) (s : String)
  | unlockWriter (w : Writer)
  | notify (id : Nat)
  | sendBroadcast (q : List Blob)
  deriving DecidableEq

/-- Modelled from the spec: `serde_json::to_string(&entry)` (the serialization
collaborator is outside `src/`).  Per the spec the canonical log record is a
self-describing, field-named textual encoding of the entry. -/
def entryJson (e : Entry) : String :=
  "\x7b\"num_hashes\":" ++ toString e.num_hashes ++ ",\"id\":" ++ toString e.id ++
    ",\"events\":" ++ toString e.events ++ "\x7d"

/-- Effect of `accountant.register_entry_id(&entry.id)`. -/
def register_entry_id (id : Nat) : List Eff :=
  [Eff.register id]

/-- Effect of `writeln!(writer.lock()..., "...", s)`: take the writer lock,
write the newline-terminated line, release the lock. -/
def writeln (w : Writer) (s : String) : List Eff :=
  [Eff.lockWriter w, Eff.writeLine w (s ++ "\n"), Eff.unlockWriter w]

/-- Effect of `thin_client_service.notify_entry_info_subscribers(&entry)`. -/
def notify_entry_info_subscribers (e : Entry) : List Eff :=
  [Eff.notify e.id]

/-- `Tpu::write_entry`: register the entry id with the accountant, write one
line (the JSON encoding of the entry) under the writer lock, then notify the
entry-info subscribers — in that order. -/
def write_entry (w : Writer) (e : Entry) : List Eff :=
  register_entry_id e.id ++ writeln w (entryJson e) ++ notify_entry_info_subscribers e

/-- The `while let Ok(entry) = output.try_recv()` tail of `Tpu::write_entries`:
one non-blocking receive per remaining pending entry, each followed by
`write_entry`, plus the final failing `try_recv` on the now-empty channel.
Returns the trace and the drained entries. -/
def drain (w : Writer) : List Entry → List Eff × List Entry
  | [] => ([Eff.recvTry], [])
  | e :: rest =>
      let p := drain w rest
      (Eff.recvTry :: (write_entry w e ++ p.1), e :: p.2)

/-- `Tpu::write_entries`: one blocking `recv_timeout(1 s)` on the accounting
stage output channel (propagating its error via `?` when the channel is empty),
then non-blocking receives until empty; every received entry is written via
`write_entry` and collected.  The channel is modelled by the list of entries
currently pending on it plus the error the empty channel reports. -/
def write_entries (w : Writer) (pending : List Entry) (emptyErr : RecvErr) :
    List Eff × Except RecvErr (List Entry) :=
  match pending with
  | [] => ([Eff.recvBlocking], Except.error emptyErr)
  | e :: rest =>
      let p := drain w rest
      (Eff.recvBlocking :: (write_entry w e ++ p.1), Except.ok (e :: p.2))

/-- Modelled from the spec: `ledger::process_entry_list_into_blobs` (repository
code outside `src/`).  Packs the collected entries, in entry order, into blobs
each carrying one or more serialized entries. -/
def process_entry_list_into_blobs (entries : List Entry) : List Blob :=
  if entries.isEmpty then [] else [⟨0, 0, entries⟩]

/-- `Tpu::run_sync`: drain entries to the caller-supplied writer, pack them
into blobs, and send the blob queue to the broadcaster unless it is empty.
The packer is a parameter (an external ledger call in the source). -/
def run_sync (packer : List Entry → List Blob) (pending : List Entry)
    (emptyErr : RecvErr) : List Eff × Except RecvErr Unit :=
  match write_entries Writer.user pending emptyErr with
  | (t, Except.error e) => (t, Except.error e)
  | (t, Except.ok list) =>
      let q := packer list
      if q.isEmpty then (t, Except.ok ()) else (t ++ [Eff.sendBroadcast q], Except.ok ())

/-- `Tpu::run_sync_no_broadcast`: drain entries to `std::io::sink()`; no
packing, no broadcast. -/
def run_sync_no_broadcast (pending : List Entry) (emptyErr : RecvErr) :
    List Eff × Except RecvErr Unit :=
  match write_entries Writer.sink pending emptyErr with
  | (t, Except.error e) => (t, Except.error e)
  | (t, Except.ok _) => (t, Except.ok ())

/-- Loop-break condition of the `sync_service` (and `sync_no_broadcast_service`)
worker: the iteration result is discarded (`let _ = obj.run_sync(..)`), then
`if exit.load(..) { break }`. -/
def syncServiceLoopBreaks (_isErr exitFlag : Bool) : Bool :=
  if exitFlag then true else false

/-- Loop-break condition of the `t_server` worker in `serve` and `replicate`:
`if e.is_err() { if exit.load(..) { break } }`. -/
def serverLoopBreaks (isErr exitFlag : Bool) : Bool :=
  if isErr then (if exitFlag then true else false) else false

/-- Loop-break condition of the `t_replicator` worker:
`if e.is_err() && s_exit.load(..) { break }`. -/
def replicatorLoopBreaks (isErr exitFlag : Bool) : Bool :=
  isErr && exitFlag

/-- Loop-break condition of each verifier worker:
`if e.is_err() && exit_.load(..) { break }`. -/
def verifierLoopBreaks (isErr exitFlag : Bool) : Bool :=
  isErr && exitFlag

/-- `exitsWithin breaks errAt exitFlag k` holds when a worker loop with break
condition `breaks`, whose iteration `n` observes error status `errAt n` and
stop-flag value `exitFlag n`, has exited after at most `k` iterations. -/
def exitsWithin (breaks : Bool → Bool → Bool) :
    (Nat → Bool) → (Nat → Bool) → Nat → Bool
  | _, _, 0 => false
  | errAt, exitFlag, Nat.succ k =>
      breaks (errAt 0) (exitFlag 0) ||
        exitsWithin breaks (fun n => errAt (n + 1)) (fun n => exitFlag (n + 1)) k

/-- `anyWithin p k`: some iteration among the first `k` satisfies `p`. -/
def anyWithin : (Nat → Bool) → Nat → Bool
  | _, 0 => false
  | p, Nat.succ k => p 0 || anyWithin (fun n => p (n + 1)) k

/-- Outcome of one iteration of a verifier worker: a normal return, an error
return (the iteration is aborted, the loop decides), or a panic that kills the
thread. -/
inductive VerifierOutcome where
  | ok
  | iterErr
  | panicked
  deriving DecidableEq

/-- `Tpu::verify_batch`: runs `ecdsa::ed25519_verify` over the batch (which
returns the sig-flag vector and cannot fail), zips, and sends the result
downstream; it returns an error exactly when that send fails. -/
def verify_batch (sendOk : Bool) : Except Unit Unit :=
  if sendOk then Except.ok () else Except.error ()

/-- `Tpu::verifier`: `recv_batch(..)?` propagates a receive failure as an
error return (aborting only the iteration), but the result of `verify_batch`
is unwrapped with `.expect(..)`, so a downstream send failure panics the
worker thread. -/
def verifier (recvOk sendOk : Bool) : VerifierOutcome :=
  if recvOk then
    match verify_batch sendOk with
    | Except.ok _ => VerifierOutcome.ok
    | Except.error _ => VerifierOutcome.panicked
  else VerifierOutcome.iterErr

/-- Error returned by one `replicate_state` iteration. -/
inductive TpuErr where
  | recv (e : RecvErr)
  | process
  deriving DecidableEq

/-- Modelled from the spec: `ledger::reconstruct_entries_from_blobs`
(repository code outside `src/`) — recovers the entries carried by the blobs,
in order. -/
def reconstruct_entries_from_blobs (blobs : List Blob) : List Entry :=
  (blobs.map Blob.entries).flatten

/-- `Tpu::replicate_state`: blocking receive of a blob batch from the window
(`recv_timeout(1 s)?`), reconstruct the entries, and apply them via
`accounting_stage.accountant.process_verified_entries(entries)?`; only after
that succeeds does the `for blob in blobs` loop recycle the batch.  The first
component of the result is the list of blobs recycled on that path; the
accountant's verdict is a parameter `processOk` of the reconstructed entries. -/
def replicate_state (recvRes : Except RecvErr (List Blob))
    (processOk : List Entry → Bool) : List Blob × Except TpuErr Unit :=
  match recvRes with
  | Except.error e => ([], Except.error (TpuErr.recv e))
  | Except.ok blobs =>
      let entries := reconstruct_entries_from_blobs blobs
      if processOk entries then (blobs, Except.ok ())
      else ([], Except.error TpuErr.process)

/-- A worker spawned by the leader assembly, tagged with the socket it is
wired to (sockets are identified by the local interface they are bound on; an
ephemeral `port = 0` rebind stays on the same interface). -/
inductive Work where
  | receiver (sock : Nat)
  | responder (sock : Nat)
  | server
  | sync
  | gossip
  | listen (sock : Nat)
  | broadcaster (sock : Nat)
  | verifierWorker
  deriving DecidableEq

/-- `UdpSocket::bind(local)` with `local = sock.local_addr()` at `port = 0`:
an ephemeral socket on the same local interface. -/
def bindEphemeral (sock : Nat) : Nat :=
  sock

/-- `Tpu::serve`: the leader assembly.  It spawns the receiver on the serve
socket, the responder on an ephemeral rebind of it, the request server, the
sync service, gossip, the gossip listener on the gossip socket, the
broadcaster on another ephemeral rebind, and four verifier workers — in the
order of the returned handle vector.  The `_events_socket` argument appears in
the signature only; no worker reads, writes, or receives it. -/
def serve (_me serveSock _events_socket gossipSock : Nat) : List Work :=
  let respondSock := bindEphemeral serveSock
  let broadcastSock := bindEphemeral serveSock
  [Work.receiver serveSock, Work.responder respondSock, Work.server, Work.sync,
    Work.gossip, Work.listen gossipSock, Work.broadcaster broadcastSock] ++
    List.replicate 4 Work.verifierWorker

/-- Is the effect a channel-receive operation? -/
def isRecvOp : Eff → Bool
  | Eff.recvBlocking => true
  | Eff.recvTry => true
  | _ => false

/-- The subsequence of channel-receive operations in a trace. -/
def recvOpsOf (t : List Eff) : List Eff :=
  t.filter isRecvOp

/-- Selects the id of a `register_entry_id` effect. -/
def regFn : Eff → Option Nat
  | Eff.register i => some i
  | _ => none

/-- The entry ids passed to `register_entry_id`, in trace order. -/
def registersOf (t : List Eff) : List Nat :=
  t.filterMap regFn

/-- Selects the id of a subscriber-notification effect. -/
def notifyFn : Eff → Option Nat
  | Eff.notify i => some i
  | _ => none

/-- The entry ids passed to `notify_entry_info_subscribers`, in trace order. -/
def notifiesOf (t : List Eff) : List Nat :=
  t.filterMap notifyFn

/-- Selects a line written to the caller-supplied (non-sink) writer. -/
def userLineFn : Eff → Option String
  | Eff.writeLine Writer.user s => some s
  | _ => none

/-- The lines written to the caller-supplied (non-sink) writer, in order. -/
def userLinesOf (t : List Eff) : List String :=
  t.filterMap userLineFn

/-- Selects a blob queue sent to the broadcaster. -/
def sendFn : Eff → Option (List Blob)
  | Eff.sendBroadcast q => some q
  | _ => none

/-- The entries carried by all blob queues sent to the broadcaster, in order. -/
def broadcastEntriesOf (t : List Eff) : List Entry :=
  ((t.filterMap sendFn).map reconstruct_entries_from_blobs).flatten

/-- True unless the effect is a send to the broadcaster. -/
def notBroadcastFn : Eff → Bool
  | Eff.sendBroadcast _ => false
  | _ => true

/-- True when the trace sends nothing to the broadcaster. -/
def noBroadcast (t : List Eff) : Bool :=
  t.all notBroadcastFn

/-- True unless the effect touches the caller-supplied (non-sink) writer. -/
def notUserWriteFn : Eff → Bool
  | Eff.lockWriter Writer.user => false
  | Eff.writeLine Writer.user _ => false
  | Eff.unlockWriter Writer.user => false
  | _ => true

/-- True when the trace never touches the caller-supplied (non-sink) writer. -/
def noUserWrites (t : List Eff) : Bool :=
  t.all notUserWriteFn

/-! ### Trace structure of the drain loop -/

theorem drain_snd (w : Writer) (l : List Entry) : (drain w l).2 = l := by
  induction l with
  | nil => rfl
  | cons e rest ih =>
      show e :: (drain w rest).2 = e :: rest
      rw [ih]

theorem recvOps_drain (w : Writer) (l : List Entry) :
    recvOpsOf (drain w l).1 = List.replicate (l.length + 1) Eff.recvTry := by
  induction l with
  | nil => rfl
  | cons e rest ih =>
      show Eff.recvTry :: recvOpsOf (drain w rest).1 =
        Eff.recvTry :: List.replicate (rest.length + 1) Eff.recvTry
      rw [ih]

theorem registers_drain (w : Writer) (l : List Entry) :
    registersOf (drain w l).1 = l.map Entry.id := by
  induction l with
  | nil => rfl
  | cons e rest ih =>
      show e.id :: registersOf (drain w rest).1 = e.id :: rest.map Entry.id
      rw [ih]

theorem notifies_drain (w : Writer) (l : List Entry) :
    notifiesOf (drain w l).1 = l.map Entry.id := by
  induction l with
  | nil => rfl
  | cons e rest ih =>
      show e.id :: notifiesOf (drain w rest).1 = e.id :: rest.map Entry.id
      rw [ih]

theorem userLines_drain_user (l : List Entry) :
    userLinesOf (drain Writer.user l).1 = l.map (fun e => entryJson e ++ "\n") := by
  induction l with
  | nil => rfl
  | cons e rest ih =>
      show (entryJson e ++ "\n") :: userLinesOf (drain Writer.user rest).1 =
        (entryJson e ++ "\n") :: rest.map (fun e => entryJson e ++ "\n")
      rw [ih]

theorem noUserWrites_drain_sink (l : List Entry) :
    noUserWrites (drain Writer.sink l).1 = true := by
  induction l with
  | nil => rfl
  | cons e rest ih =>
      show noUserWrites (drain Writer.sink rest).1 = true
      exact ih

theorem noBroadcast_drain (w : Writer) (l : List Entry) :
    noBroadcast (drain w l).1 = true := by
  induction l with
  | nil => rfl
  | cons e rest ih =>
      show noBroadcast (drain w rest).1 = true
      exact ih

theorem userLinesOf_append (t1 t2 : List Eff) :
    userLinesOf (t1 ++ t2) = userLinesOf t1 ++ userLinesOf t2 := by
  simp [userLinesOf, List.filterMap_append]

theorem broadcastEntriesOf_append (t1 t2 : List Eff) :
    broadcastEntriesOf (t1 ++ t2) = broadcastEntriesOf t1 ++ broadcastEntriesOf t2 := by
  simp [broadcastEntriesOf, List.filterMap_append]

theorem noBroadcast_append (t1 t2 : List Eff) :
    noBroadcast (t1 ++ t2) = (noBroadcast t1 && noBroadcast t2) := by
  simp [noBroadcast, List.all_append]

theorem userLines_write_entry_user (e : Entry) :
    userLinesOf (write_entry Writer.user e) = [entryJson e ++ "\n"] := rfl

theorem broadcastEntries_drain (w : Writer) (l : List Entry) :
    broadcastEntriesOf (drain w l).1 = [] := by
  induction l with
  | nil => rfl
  | cons e rest ih =>
      show broadcastEntriesOf (drain w rest).1 = []
      exact ih

theorem userLines_send (q : List Blob) :
    userLinesOf [Eff.sendBroadcast q] = [] := rfl

/-! ### Claims C1 and C2: worker loop exit conditions -/

/-- Claim C1 (counterexample): with the stop flag set from iteration 0 onward
but every iteration succeeding (the blocking receive keeps returning data),
the `t_server` and `t_replicator` loops have still not exited after 5
iterations — exceeding both the nominal one-receive-timeout bound and the 5 s
test tolerance, so the flag alone does not make the handle joinable. -/
theorem serve_worker_not_joinable_with_flag_set :
    (fun _ : Nat => true) 0 = true ∧
    exitsWithin serverLoopBreaks (fun _ => false) (fun _ => true) 5 = false ∧
    exitsWithin replicatorLoopBreaks (fun _ => false) (fun _ => true) 5 = false :=
  ⟨rfl, rfl, rfl⟩

/-- Claim C1 (amended): with the stop flag set throughout, the `t_server` and
`t_replicator` loops exit within `k` iterations exactly when one of the first
`k` iterations returns an error.  In the idle case every blocking receive
times out (an error within 1 s), so the worker exits within one iteration. -/
theorem worker_exit_at_first_error_after_flag (errAt exitFlag : Nat → Bool)
    (hflag : ∀ n, exitFlag n = true) (k : Nat) :
    exitsWithin serverLoopBreaks errAt exitFlag k = anyWithin errAt k ∧
    exitsWithin replicatorLoopBreaks errAt exitFlag k = anyWithin errAt k := by
  induction k generalizing errAt exitFlag with
  | zero => exact ⟨rfl, rfl⟩
  | succ k ih =>
      have h0 := hflag 0
      have ih2 := ih (fun n => errAt (n + 1)) (fun n => exitFlag (n + 1))
        (fun n => hflag (n + 1))
      simp only [exitsWithin, anyWithin, h0, ih2.1, ih2.2]
      constructor <;> cases errAt 0 <;> rfl

/-- Claim C1 (witness): instantiating the amended theorem with the flag set
and every iteration erroring, both loops exit within one iteration. -/
theorem worker_exit_at_first_error_after_flag_witness :
    exitsWithin serverLoopBreaks (fun _ => true) (fun _ => true) 1 =
        anyWithin (fun _ => true) 1 ∧
    exitsWithin replicatorLoopBreaks (fun _ => true) (fun _ => true) 1 =
        anyWithin (fun _ => true) 1 :=
  worker_exit_at_first_error_after_flag (fun _ => true) (fun _ => true) (fun _ => rfl) 1

/-- Claim C2 (counterexample): the `sync_service` worker breaks out of its
loop when the stop flag is set even though the iteration did not return an
error, contradicting the claimed exit condition (error ∧ flag). -/
theorem sync_service_breaks_without_error :
    syncServiceLoopBreaks false true = true ∧ (false && true) = false :=
  ⟨rfl, rfl⟩

/-- Claim C2 (amended): the verifier, `t_server` and `t_replicator` workers
exit exactly when (iteration returned an error) ∧ (stop flag set); the
`sync_service` / `sync_no_broadcast_service` workers exit exactly when the
stop flag is set, regardless of the iteration outcome. -/
theorem loop_break_conditions :
    (∀ e f, verifierLoopBreaks e f = (e && f)) ∧
    (∀ e f, serverLoopBreaks e f = (e && f)) ∧
    (∀ e f, replicatorLoopBreaks e f = (e && f)) ∧
    (∀ e f, syncServiceLoopBreaks e f = f) := by
  refine ⟨fun e f => rfl, fun e f => ?_, fun e f => rfl, fun e f => ?_⟩
  · cases e <;> cases f <;> rfl
  · cases f <;> rfl

/-! ### Claim C4: the verifier panics on a downstream send error -/

/-- Claim C4: a receive failure makes a verifier iteration return an error
(aborting only that iteration), but a downstream send failure is unwrapped
with `.expect(..)` inside `verifier`, panicking the worker thread — the code
violates the no-panic rule the claim states. -/
theorem verifier_panics_on_send_error :
    verifier true false = VerifierOutcome.panicked ∧
    verifier false true = VerifierOutcome.iterErr ∧
    verifier false false = VerifierOutcome.iterErr ∧
    verifier true true = VerifierOutcome.ok :=
  ⟨rfl, rfl, rfl, rfl⟩

/-! ### Claim C7: per-entry effect order of `write_entry` -/

/-- Claim C7: for every entry, `write_entry` performs, in this order:
`register_entry_id(entry.id)`, then — under the exclusive writer lock — one
write of the newline-terminated JSON record of the entry, then the
notification of the entry-info subscribers. -/
theorem write_entry_effect_order (w : Writer) (e : Entry) :
    write_entry w e =
      [Eff.register e.id, Eff.lockWriter w,
        Eff.writeLine w (entryJson e ++ "\n"), Eff.unlockWriter w,
        Eff.notify e.id] := rfl

/-! ### Claim C9: the events socket is unused by `serve` -/

/-- Claim C9: the leader assembly built by `serve` is identical for any two
values of the events-socket argument — no worker is wired to it. -/
theorem serve_ignores_events_socket (me serveSock gossipSock ev ev' : Nat) :
    serve me serveSock ev gossipSock = serve me serveSock ev' gossipSock := rfl

/-! ### Claim C6: drain discipline of `write_entries` -/

/-- Claim C6: on a non-empty channel, a drain pass performs exactly one
blocking receive (the 1 s `recv_timeout`) followed by one non-blocking
`try_recv` per further receive attempt until the channel is empty — `l.length`
of them in total, the last one failing — and returns all drained entries in
order. -/
theorem write_entries_drain_discipline (w : Writer) (l : List Entry)
    (err : RecvErr) (h : l ≠ []) :
    (write_entries w l err).2 = Except.ok l ∧
    recvOpsOf (write_entries w l err).1 =
      Eff.recvBlocking :: List.replicate l.length Eff.recvTry := by
  cases l with
  | nil => exact absurd rfl h
  | cons e rest =>
      refine ⟨?_, ?_⟩
      · show Except.ok (e :: (drain w rest).2) = Except.ok (e :: rest)
        rw [drain_snd]
      · show Eff.recvBlocking :: recvOpsOf (drain w rest).1 =
          Eff.recvBlocking :: List.replicate (rest.length + 1) Eff.recvTry
        rw [recvOps_drain]

/-- Claim C6 (witness): a concrete pass over a channel holding two entries. -/
theorem write_entries_drain_discipline_witness :
    (write_entries Writer.user [⟨0, 3, []⟩, ⟨0, 4, []⟩] RecvErr.timeout).2 =
        Except.ok [⟨0, 3, []⟩, ⟨0, 4, []⟩] ∧
    recvOpsOf (write_entries Writer.user [⟨0, 3, []⟩, ⟨0, 4, []⟩] RecvErr.timeout).1 =
      Eff.recvBlocking :: List.replicate 2 Eff.recvTry :=
  write_entries_drain_discipline Writer.user [⟨0, 3, []⟩, ⟨0, 4, []⟩]
    RecvErr.timeout (by decide)

/-! ### Claim C3: effects of the sync-no-broadcast pass -/

/-- Claim C3 (counterexample): a validator-mode pass over a channel holding
one entry with id 7 notifies the entry-info subscribers of that entry — a
per-entry invocation of the thin-client component beyond `register_entry_id`,
so registration is not the only per-entry side effect on shared state. -/
theorem sync_no_broadcast_notifies_subscribers :
    Eff.notify 7 ∈ (run_sync_no_broadcast [⟨0, 7, []⟩] RecvErr.timeout).1 ∧
    notifiesOf (run_sync_no_broadcast [⟨0, 7, []⟩] RecvErr.timeout).1 ≠ [] := by
  exact ⟨by decide, by decide⟩

/-- Claim C3 (amended): a sync-no-broadcast pass sends nothing to the
broadcaster and never touches a caller-supplied writer (the records go to the
sink), but per drained entry it performs two shared-state effects, in order:
`register_entry_id(entry.id)` and the entry-info subscriber notification. -/
theorem run_sync_no_broadcast_effects (l : List Entry) (err : RecvErr) :
    noBroadcast (run_sync_no_broadcast l err).1 = true ∧
    noUserWrites (run_sync_no_broadcast l err).1 = true ∧
    registersOf (run_sync_no_broadcast l err).1 = l.map Entry.id ∧
    notifiesOf (run_sync_no_broadcast l err).1 = l.map Entry.id := by
  cases l with
  | nil => exact ⟨rfl, rfl, rfl, rfl⟩
  | cons e rest =>
      refine ⟨?_, ?_, ?_, ?_⟩
      · show noBroadcast (drain Writer.sink rest).1 = true
        exact noBroadcast_drain Writer.sink rest
      · show noUserWrites (drain Writer.sink rest).1 = true
        exact noUserWrites_drain_sink rest
      · show e.id :: registersOf (drain Writer.sink rest).1 = e.id :: rest.map Entry.id
        rw [registers_drain]
      · show e.id :: notifiesOf (drain Writer.sink rest).1 = e.id :: rest.map Entry.id
        rw [notifies_drain]

/-! ### Claim C5: blob recycling in `replicate_state` -/

/-- Claim C5 (counterexample): a batch of one blob is received, entry
reconstruction succeeds, and `process_verified_entries` returns an error: the
`?` operator returns early, so the iteration recycles no blob at all even
though the batch is non-empty — the error path leaks the batch. -/
theorem replicate_state_error_path_skips_recycle :
    (replicate_state (Except.ok [⟨0, 0, [⟨0, 7, []⟩]⟩]) (fun _ => false)).1 = [] ∧
    (replicate_state (Except.ok [⟨0, 0, [⟨0, 7, []⟩]⟩]) (fun _ => false)).2 =
        Except.error TpuErr.process ∧
    ([⟨0, 0, [⟨0, 7, []⟩]⟩] : List Blob) ≠ [] := by
  refine ⟨rfl, rfl, by decide⟩

/-- Claim C5 (amended): `replicate_state` recycles the received blobs only on
the all-success path; when `process_verified_entries` rejects the
reconstructed entries it returns early and recycles nothing, and on a receive
error it propagates the error.  With the stop flag unset, the erroring
iteration does not break the replicator loop, so the loop continues. -/
theorem replicate_state_recycles_only_on_success (blobs : List Blob)
    (p : List Entry → Bool) (e : RecvErr) :
    (p (reconstruct_entries_from_blobs blobs) = true →
      replicate_state (Except.ok blobs) p = (blobs, Except.ok ())) ∧
    (p (reconstruct_entries_from_blobs blobs) = false →
      replicate_state (Except.ok blobs) p = ([], Except.error TpuErr.process)) ∧
    replicate_state (Except.error e) p = ([], Except.error (TpuErr.recv e)) ∧
    replicatorLoopBreaks true false = false := by
  refine ⟨fun hp => ?_, fun hp => ?_, rfl, rfl⟩
  · show (if p (reconstruct_entries_from_blobs blobs) then (blobs, Except.ok ())
      else ([], Except.error TpuErr.process)) = (blobs, Except.ok ())
    rw [hp]
    rfl
  · show (if p (reconstruct_entries_from_blobs blobs) then (blobs, Except.ok ())
      else ([], Except.error TpuErr.process)) = ([], Except.error TpuErr.process)
    rw [hp]
    rfl

/-- Claim C5 (witness): concrete instantiations of the amended theorem, one
per path — success recycles the batch, a process error recycles nothing. -/
theorem replicate_state_recycles_only_on_success_witness :
    replicate_state (Except.ok [⟨0, 0, [⟨0, 7, []⟩]⟩]) (fun _ => true) =
        ([⟨0, 0, [⟨0, 7, []⟩]⟩], Except.ok ()) ∧
    replicate_state (Except.ok [⟨0, 0, [⟨0, 7, []⟩]⟩]) (fun _ => false) =
        ([], Except.error TpuErr.process) ∧
    replicate_state (Except.error RecvErr.timeout) (fun _ => true) =
        ([], Except.error (TpuErr.recv RecvErr.timeout)) :=
  ⟨(replicate_state_recycles_only_on_success [⟨0, 0, [⟨0, 7, []⟩]⟩]
      (fun _ => true) RecvErr.timeout).1 rfl,
    (replicate_state_recycles_only_on_success [⟨0, 0, [⟨0, 7, []⟩]⟩]
      (fun _ => false) RecvErr.timeout).2.1 rfl,
    (replicate_state_recycles_only_on_success [] (fun _ => true)
      RecvErr.timeout).2.2.1⟩

/-! ### Claim C8: the sync service preserves entry order -/

/-- Claim C8: a sync pass writes the drained entries to the log in exactly the
order they were received from the accounting-stage output channel, and the
entries packed into the broadcast blobs are that same sequence; the drained
sequence is a prefix of the channel's full emission (the pass plus whatever
the accounting stage emits later). -/
theorem run_sync_preserves_order (l future : List Entry) (err : RecvErr)
    (h : l ≠ []) :
    userLinesOf (run_sync process_entry_list_into_blobs l err).1 =
        l.map (fun e => entryJson e ++ "\n") ∧
    broadcastEntriesOf (run_sync process_entry_list_into_blobs l err).1 = l ∧
    List.IsPrefix l (l ++ future) := by
  cases l with
  | nil => exact absurd rfl h
  | cons e rest =>
      refine ⟨?_, ?_, ⟨future, rfl⟩⟩
      · show (entryJson e ++ "\n") ::
            userLinesOf ((drain Writer.user rest).1 ++
              [Eff.sendBroadcast [⟨0, 0, e :: (drain Writer.user rest).2⟩]]) =
          (entryJson e ++ "\n") :: rest.map (fun x => entryJson x ++ "\n")
        rw [userLinesOf_append, userLines_drain_user, userLines_send,
          List.append_nil]
      · show broadcastEntriesOf ((drain Writer.user rest).1 ++
            [Eff.sendBroadcast [⟨0, 0, e :: (drain Writer.user rest).2⟩]]) =
          e :: rest
        rw [broadcastEntriesOf_append, broadcastEntries_drain, drain_snd]
        simp [broadcastEntriesOf, sendFn, reconstruct_entries_from_blobs]

/-- Claim C8 (witness): a concrete pass draining one entry, with one more
entry emitted later. -/
theorem run_sync_preserves_order_witness :
    userLinesOf (run_sync process_entry_list_into_blobs [⟨0, 3, []⟩]
        RecvErr.timeout).1 =
      [(⟨0, 3, []⟩ : Entry)].map (fun e => entryJson e ++ "\n") ∧
    broadcastEntriesOf (run_sync process_entry_list_into_blobs [⟨0, 3, []⟩]
        RecvErr.timeout).1 = [⟨0, 3, []⟩] ∧
    List.IsPrefix [(⟨0, 3, []⟩ : Entry)] ([⟨0, 3, []⟩] ++ [⟨0, 4, []⟩]) :=
  run_sync_preserves_order [⟨0, 3, []⟩] [⟨0, 4, []⟩] RecvErr.timeout (by decide)

/-! ### Claim C10: a sync pass is atomic on failure and never broadcasts
empty work -/

/-- Claim C10: when the blocking receive fails, `run_sync` returns that error
with the blocking receive as its only effect — no entry id registered, no
line written, no subscriber notified, nothing sent to the broadcaster; and
when the packer yields an empty blob queue, the pass sends nothing to the
broadcaster. -/
theorem run_sync_failure_atomic (packer : List Entry → List Blob)
    (l : List Entry) (err : RecvErr) :
    (l = [] → run_sync packer l err = ([Eff.recvBlocking], Except.error err)) ∧
    (packer l = [] → noBroadcast (run_sync packer l err).1 = true) := by
  constructor
  · intro hl
    subst hl
    rfl
  · intro hp
    cases l with
    | nil => rfl
    | cons e rest =>
        have hstep : run_sync packer (e :: rest) err =
            (fun q : List Blob =>
              if q.isEmpty then
                (Eff.recvBlocking ::
                  (write_entry Writer.user e ++ (drain Writer.user rest).1),
                  (Except.ok () : Except RecvErr Unit))
              else
                ((Eff.recvBlocking ::
                  (write_entry Writer.user e ++ (drain Writer.user rest).1)) ++
                  [Eff.sendBroadcast q], Except.ok ()))
              (packer (e :: (drain Writer.user rest).2)) := rfl
        rw [drain_snd, hp] at hstep
        rw [hstep]
        show noBroadcast (drain Writer.user rest).1 = true
        exact noBroadcast_drain Writer.user rest

/-- Claim C10 (witness): a pass over an empty channel returns the receive
error having performed only the blocking receive, and a pass whose packer
yields no blobs sends nothing to the broadcaster. -/
theorem run_sync_failure_atomic_witness :
    run_sync (fun _ => []) [] RecvErr.timeout =
        ([Eff.recvBlocking], Except.error RecvErr.timeout) ∧
    noBroadcast (run_sync (fun _ => []) [⟨0, 3, []⟩] RecvErr.timeout).1 = true :=
  ⟨(run_sync_failure_atomic (fun _ => []) [] RecvErr.timeout).1 rfl,
    (run_sync_failure_atomic (fun _ => []) [⟨0, 3, []⟩] RecvErr.timeout).2 rfl⟩

end Tpu
